import Mathlib

/-!
# Verification of the p5 shape-construction and rendering pipeline

Shallow embedding of the coordinate-mode resolution logic
(`p5/core/primitives.py`), the style setters (`p5/core/attribs.py`) and the
per-shape renderer dispatch (`p5/sketch/renderer.py`).  Coordinates and color
channels are modelled as rationals; Python exceptions are modelled with an
explicit error type, and functions that can raise return `Except` values or a
result-error pair.  Python tuple unpacking is length-strict, so shape fields
that hold a point-like value record whether it is a two-element tuple or a
three-element tuple/Point: the renderer's two-element unpack of a stored
three-component center raises `ValueError`, which the embedding models
explicitly.
-/

namespace P5

/-- Python exceptions raised by the embedded code.  The spec's `InvalidMode`
and `InvalidStyleValue` error kinds are both `ValueError`s in the source,
distinguished by message; a mismatched tuple unpack also raises `ValueError`;
a reference to an undefined name raises `NameError`; an out-of-range index
raises `IndexError`. -/
inductive PyErr where
  | valueError (msg : String)
  | nameError (missing : String)
  | indexError (msg : String)
deriving Repr, DecidableEq

/-- `p5.pmath.Point`.  Modelled from the spec: the `pmath` package is not part
of the given sources; the spec describes Point as an "(x, y, z) floating-point
triple", constructed in the sources with either two arguments (z defaulting
to 0, cf. `Point(width, height)` in `primitives.arc`) or three, and always
iterating to exactly three elements (`renderer.py` three-unpacks a
two-argument Point at lines 232-233). -/
structure Point where
  x : ℚ
  y : ℚ
  z : ℚ
deriving Repr, DecidableEq

/-- `Point(x, y)` with the z component defaulted, as used by the sources. -/
def Point.mk2 (x y : ℚ) : Point := ⟨x, y, 0⟩

/-- A Python point-like value as stored in a shape field: either a raw
two-element tuple, or a three-element tuple/Point.  Python tuple unpacking
is length-strict, so `cx, cy = v` succeeds only on a pair and raises
`ValueError` on a triple, while `cx, cy, _ = v` succeeds only on a
triple. -/
inductive PyPt where
  | pair (x y : ℚ)
  | triple (x y z : ℚ)
deriving Repr, DecidableEq

/-- `Point(*v)`: rebuilding a Point from a stored pair or triple (z defaults
to 0 for a pair). -/
def PyPt.toPoint : PyPt → Point
  | .pair x y => ⟨x, y, 0⟩
  | .triple x y z => ⟨x, y, z⟩

/-- A Point stored into a shape field iterates as its three components. -/
def Point.toPyPt (p : Point) : PyPt := .triple p.x p.y p.z

/-- The parametric fields stored by the `Rect` shape subclass
(`primitives.py`, class `Rect`): `_center` (the factory passes the resolved
corner here — a raw user tuple in CORNER mode, a three-component `Point` in
the other modes), `_width`, `_height`. -/
structure Rect where
  center : PyPt
  width : ℚ
  height : ℚ
deriving Repr, DecidableEq

/-- The parametric fields stored by the `Ellipse` shape subclass
(`primitives.py`, class `Ellipse`): `_center` (the raw user coordinate, as
passed), `_width`, `_height`. -/
structure Ellipse where
  center : PyPt
  width : ℚ
  height : ℚ
deriving Repr, DecidableEq

/-- The parametric fields stored by the `Arc` shape subclass
(`primitives.py`, class `Arc`): `_center`, `_radii`, `_start_angle`,
`_stop_angle`, plus its `attribs` tag set.  Every `arc` factory branch
stores a three-component center and a `Point` radii, so these fields are
always three-unpackable and are kept as `Point`s. -/
structure Arc where
  center : Point
  radii : Point
  startAngle : ℚ
  stopAngle : ℚ
  attribs : List String
deriving Repr, DecidableEq

/-- `primitives.rect(coordinate, *args, mode)` (lines 283-308), after the
`mode is None` default has been resolved.  The Python star-args are passed
here already destructured into two rationals: for CORNER and CENTER modes
they are `(width, height)`, for RADIUS `(half_width, half_height)`, and for
CORNERS they are the x and y of the single opposite corner (the source
rebuilds it with `Point(*corner_2)`, z defaulting to 0).  CORNER mode stores
the raw coordinate as the corner; the other modes store the `Point` the
branch computes, a three-component triple.  An unknown mode raises
`ValueError` ("Unknown rect mode"), the spec's `InvalidMode`. -/
def rect (coordinate : PyPt) (arg1 arg2 : ℚ) (mode : String) :
    Except PyErr Rect :=
  if mode = "CORNER" then
    .ok ⟨coordinate, arg1, arg2⟩
  else if mode = "CENTER" then
    let center := coordinate.toPoint
    let corner : Point := ⟨center.x - arg1 / 2, center.y - arg2 / 2, center.z⟩
    .ok ⟨corner.toPyPt, arg1, arg2⟩
  else if mode = "RADIUS" then
    let center := coordinate.toPoint
    let corner : Point := ⟨center.x - arg1, center.y - arg2, center.z⟩
    .ok ⟨corner.toPyPt, 2 * arg1, 2 * arg2⟩
  else if mode = "CORNERS" then
    let corner := coordinate.toPoint
    let corner2 : Point := Point.mk2 arg1 arg2
    .ok ⟨corner.toPyPt, corner2.x - corner.x, corner2.y - corner.y⟩
  else
    .error (.valueError "Unknown rect mode")

/-- `primitives.square(coordinate, side_length, mode)` (lines 310-343), after
the `mode is None` default has been resolved.  CORNERS mode raises
`ValueError` before `rect` is called, so no shape is constructed or drawn. -/
def square (coordinate : PyPt) (sideLength : ℚ) (mode : String) :
    Except PyErr Rect :=
  if mode = "CORNERS" then
    .error (.valueError "Cannot draw square with CORNERS mode")
  else
    rect coordinate sideLength sideLength mode

/-- `primitives.ellipse(coordinate, *args, mode)` (lines 448-474), after the
`mode is None` default has been resolved.  Star-args destructured as in
`rect`: `(width, height)` for CORNER/CENTER, `(x_radius, y_radius)` for
RADIUS, and the opposite corner's x and y for CORNERS.  Note that each
mode branch of the source computes a resolved `center` and `dim` and then
discards them: the returned shape is `Ellipse(coordinate, width, height)`,
built from the raw coordinate (stored as passed) and the raw (or
CORNERS-differenced) width/height.  The discarded bindings are kept here,
prefixed with an underscore, to mirror the source. -/
def ellipse (coordinate : PyPt) (arg1 arg2 : ℚ) (mode : String) :
    Except PyErr Ellipse :=
  let resolved : ℚ × ℚ × String :=
    if mode = "CORNERS" then
      let corner := coordinate.toPoint
      let corner2 : Point := Point.mk2 arg1 arg2
      (corner2.x - corner.x, corner2.y - corner.y, "CORNER")
    else
      (arg1, arg2, mode)
  let width := resolved.1
  let height := resolved.2.1
  let mode := resolved.2.2
  if mode = "CORNER" then
    let corner := coordinate.toPoint
    let _dim : Point := Point.mk2 width height
    let _center : ℚ × ℚ × ℚ :=
      (corner.x + _dim.x / 2, corner.y + _dim.y / 2, corner.z)
    .ok ⟨coordinate, width, height⟩
  else if mode = "CENTER" then
    let _center := coordinate.toPoint
    let _dim : Point := Point.mk2 (width / 2) (height / 2)
    .ok ⟨coordinate, width, height⟩
  else if mode = "RADIUS" then
    let _center := coordinate.toPoint
    let _dim : Point := Point.mk2 width height
    .ok ⟨coordinate, width, height⟩
  else
    .error (.valueError "Unknown ellipse mode")

/-- `primitives.circle(coordinate, radius, mode)` (lines 476-509), after the
`mode is None` default has been resolved.  CORNERS mode raises `ValueError`
before `ellipse` is called, so no shape is constructed or drawn. -/
def circle (coordinate : PyPt) (radius : ℚ) (mode : String) :
    Except PyErr Ellipse :=
  if mode = "CORNERS" then
    .error (.valueError "Cannot create circle in CORNERS mode")
  else
    ellipse coordinate radius radius mode

/-- `primitives.arc(coordinate, width, height, start_angle, stop_angle, mode,
ellipse_mode)` (lines 358-418), after the `ellipse_mode is None` default has
been resolved.  Resolves the parent ellipse's center and radii from the
ellipse mode (CORNER/CENTER/RADIUS; anything else raises `ValueError`) and
stores the angles and the arc-mode attribute string. -/
def arc (coordinate : PyPt) (width height startAngle stopAngle : ℚ)
    (amode : List String) (emode : String) : Except PyErr Arc :=
  if emode = "CORNER" then
    let corner := coordinate.toPoint
    let dim := Point.mk2 width height
    let center : Point := ⟨corner.x + dim.x / 2, corner.y + dim.y / 2, corner.z⟩
    .ok ⟨center, dim, startAngle, stopAngle, amode⟩
  else if emode = "CENTER" then
    .ok ⟨coordinate.toPoint, Point.mk2 (width / 2) (height / 2),
      startAngle, stopAngle, amode⟩
  else if emode = "RADIUS" then
    .ok ⟨coordinate.toPoint, Point.mk2 width height, startAngle, stopAngle, amode⟩
  else
    .error (.valueError "Unknown arc mode")

end P5

namespace P5

/-- Normalized RGBA color channels, `(red, green, blue, alpha)` each in the
0-1 range, as produced by `Color.normalized`. -/
abbrev RGBA := ℚ × ℚ × ℚ × ℚ

/-- The per-shape geometry the renderer dispatches on with `type(shape)`
checks (`renderer.py` lines 217-249): a generic `PShape` polygon/path/point
carries a vertex list (of two-element vertices), the
`Arc`/`Ellipse`/`Rect`/`Bezier` subclasses carry their parametric fields.
The ellipse and rect centers are `PyPt`s because the stored `_center` may be
a raw two-element user tuple or a three-component `Point`, and the renderer
two-unpacks it. -/
inductive Geom where
  | poly (vertices : List (ℚ × ℚ))
  | arcG (center radii : Point) (startAngle stopAngle : ℚ)
  | ellipseG (center : PyPt) (width height : ℚ)
  | rectG (center : PyPt) (width height : ℚ)
  | bezierG (startPt cp1 cp2 stopPt : ℚ × ℚ)
deriving Repr, DecidableEq

/-- The six entries of the shape's local 4x4 transform matrix that the
renderer forwards to the canvas `transform` call, in the order read from
`shape._matrix`: `[0][0], [1][0], [0][1], [1][1], [0][3], [1][3]`. -/
structure TMat where
  m00 : ℚ
  m10 : ℚ
  m01 : ℚ
  m11 : ℚ
  m03 : ℚ
  m13 : ℚ
deriving Repr, DecidableEq

/-- The fields of `p5.core.shape.PShape` used by the renderer and by
`primitives.draw_shape`.  Modelled from the spec where `shape.py` is not
among the given sources: `kind` is the shape's tag string (the renderer
compares it against "poly"), `attribs` its tag set, `fill`/`stroke` the
nullable normalized colors snapshotted at construction, and `children` the
ordered owned child shapes. -/
inductive PShape where
  | mk (geom : Geom) (attribs : List String) (kind : String)
      (fill stroke : Option RGBA) (strokeWeight : ℚ)
      (strokeCap strokeJoin : String) (mat : TMat)
      (children : List PShape)

def PShape.geom : PShape → Geom
  | .mk g _ _ _ _ _ _ _ _ _ => g

def PShape.attribs : PShape → List String
  | .mk _ a _ _ _ _ _ _ _ _ => a

def PShape.kind : PShape → String
  | .mk _ _ k _ _ _ _ _ _ _ => k

def PShape.fill : PShape → Option RGBA
  | .mk _ _ _ f _ _ _ _ _ _ => f

def PShape.stroke : PShape → Option RGBA
  | .mk _ _ _ _ s _ _ _ _ _ => s

def PShape.strokeWeight : PShape → ℚ
  | .mk _ _ _ _ _ w _ _ _ _ => w

def PShape.strokeCap : PShape → String
  | .mk _ _ _ _ _ _ c _ _ _ => c

def PShape.strokeJoin : PShape → String
  | .mk _ _ _ _ _ _ _ j _ _ => j

def PShape.mat : PShape → TMat
  | .mk _ _ _ _ _ _ _ _ m _ => m

def PShape.children : PShape → List PShape
  | .mk _ _ _ _ _ _ _ _ _ c => c

/-- The geometry of a `Rect` produced by the primitive factory. -/
def Geom.ofRect (r : Rect) : Geom := .rectG r.center r.width r.height

/-- The geometry of an `Ellipse` produced by the primitive factory. -/
def Geom.ofEllipse (e : Ellipse) : Geom := .ellipseG e.center e.width e.height

/-- The geometry of an `Arc` produced by the primitive factory. -/
def Geom.ofArc (a : Arc) : Geom := .arcG a.center a.radii a.startAngle a.stopAngle

namespace Renderer

/-- The vector-canvas (pynanovg) calls emitted by the renderer, in emission
order.  `arc` is nanovg's circular-arc command: center, one radius, two
angles, and a winding direction.  `fillCmd`/`strokeCmd` stand for the
argument-less `vg.fill()`/`vg.stroke()` paint calls. -/
inductive Cmd where
  | shapeAntiAlias (v : ℕ)
  | beginPath
  | save
  | transform2d (a b c d e f : ℚ)
  | rect (x y w h : ℚ)
  | moveTo (x y : ℚ)
  | lineTo (x y : ℚ)
  | arc (cx cy r a0 a1 : ℚ) (dir : ℕ)
  | ellipse (cx cy rx ry : ℚ)
  | bezierTo (c1x c1y c2x c2y x y : ℚ)
  | closePath
  | restore
  | lineCap (t : ℕ)
  | lineJoin (t : ℕ)
  | strokeWidth (w : ℚ)
  | fillColor (r g b a : ℚ)
  | fillCmd
  | strokeColor (r g b a : ℚ)
  | strokeCmd
deriving Repr, DecidableEq

/-- The vertex walk of the generic-polygon branch (`renderer.py` lines
223-229): `moveTo` for the first vertex, `lineTo` for every later one. -/
def polyCmds : List (ℚ × ℚ) → List Cmd
  | [] => []
  | v :: rest => Cmd.moveTo v.1 v.2 :: rest.map (fun p => Cmd.lineTo p.1 p.2)

/-- The path-construction commands of `renderer.draw_shape`'s kind branch
(`renderer.py` lines 217-249), paired with the Python error the branch
raises, if any.  The point special case indexes `shape.vertices[0]`
(raising `IndexError` on an empty vertex list), disables edge smoothing and
draws a 1x1 rect at the single vertex.  The `Arc` branch three-unpacks both
stored `Point`s — always length 3, so no error — but passes only the
x-radius to the circular `vg.arc(cx, cy, rx, start, stop, 2)` call, then
adds a `lineTo` back to the center when "pie" is among the attribs.  The
`Ellipse` and `Rect` branches two-unpack the stored `_center`
(`cx, cy = shape._center`, lines 238 and 241): on a three-component stored
center this raises `ValueError` before the ellipse/rect command is emitted;
on a two-element center the `Ellipse` branch halves the stored width/height
and the `Rect` branch passes its stored values through unchanged. -/
def pathCmds (g : Geom) (attribs : List String) : List Cmd × Option PyErr :=
  match g with
  | .poly vertices =>
    if "point" ∈ attribs then
      match vertices with
      | v :: _ => ([Cmd.shapeAntiAlias 0, Cmd.rect v.1 v.2 1 1], none)
      | [] => ([], some (.indexError "list index out of range"))
    else (polyCmds vertices, none)
  | .arcG center radii a0 a1 =>
    ([Cmd.arc center.x center.y radii.x a0 a1 2] ++
      (if "pie" ∈ attribs then [Cmd.lineTo center.x center.y] else []), none)
  | .ellipseG center w h =>
    match center with
    | .pair cx cy => ([Cmd.ellipse cx cy (w / 2) (h / 2)], none)
    | .triple _ _ _ =>
      ([], some (.valueError "too many values to unpack (expected 2)"))
  | .rectG center w h =>
    match center with
    | .pair cx cy => ([Cmd.rect cx cy w h], none)
    | .triple _ _ _ =>
      ([], some (.valueError "too many values to unpack (expected 2)"))
  | .bezierG s c1 c2 e =>
    ([Cmd.moveTo s.1 s.2, Cmd.bezierTo c1.1 c1.2 c2.1 c2.2 e.1 e.2], none)

/-- Stroke-cap name to canvas `lineCap` code (`renderer.py` lines 255-262):
BUTT, ROUND, SQUARE map to 1, 2, 3; anything else is left at the default 1. -/
def capType (cap : String) : ℕ :=
  if cap = "BUTT" then 1
  else if cap = "ROUND" then 2
  else if cap = "SQUARE" then 3
  else 1

/-- Stroke-join name to canvas `lineJoin` code (`renderer.py` lines 264-271):
MITER, ROUND, SQUARE map to 1, 2, 3; anything else is left at the default 1. -/
def joinType (j : String) : ℕ :=
  if j = "MITER" then 1
  else if j = "ROUND" then 2
  else if j = "SQUARE" then 3
  else 1

/-- The fill paint commands (`renderer.py` lines 274-277): emitted only when
the shape's kind is "poly" and its fill is non-null, and the source passes
the unpacked `r, g, b, a = shape.fill.normalized` to `vg.fillColor(r, b, g,
a)` with the green and blue channels transposed. -/
def fillCmds (kind : String) (fill : Option RGBA) : List Cmd :=
  if kind = "poly" then
    match fill with
    | some (r, g, b, a) => [Cmd.fillColor r b g a, Cmd.fillCmd]
    | none => []
  else []

/-- The stroke paint commands (`renderer.py` lines 278-281): emitted whenever
the shape's stroke is non-null, again as `vg.strokeColor(r, b, g, a)` with
green and blue transposed. -/
def strokeCmds : Option RGBA → List Cmd
  | some (r, g, b, a) => [Cmd.strokeColor r b g a, Cmd.strokeCmd]
  | none => []

/-- `renderer.draw_shape(shape)` (`renderer.py` lines 205-281) as the list of
canvas commands it emits, in order, paired with the Python error it raises,
if any.  `smooth` is the renderer's process-wide smoothing flag.  The
anti-alias, begin-path, save and transform calls precede the kind branch, so
they are emitted even when the branch raises; an error in the branch
propagates and nothing after it (close, restore, stroke style, paint) runs. -/
def draw_shape (smooth : Bool) (s : PShape) : List Cmd × Option PyErr :=
  let hdr : List Cmd :=
    [.shapeAntiAlias (if smooth then 1 else 0), .beginPath, .save,
     .transform2d s.mat.m00 s.mat.m10 s.mat.m01 s.mat.m11 s.mat.m03 s.mat.m13]
  match pathCmds s.geom s.attribs with
  | (cmds, some e) => (hdr ++ cmds, some e)
  | (cmds, none) =>
    (hdr ++ cmds
      ++ (if "closed" ∈ s.attribs then [Cmd.closePath] else [])
      ++ [.restore, .lineCap (capType s.strokeCap),
          .lineJoin (joinType s.strokeJoin), .strokeWidth s.strokeWeight]
      ++ fillCmds s.kind s.fill
      ++ strokeCmds s.stroke, none)

end Renderer

/-- `primitives.draw_shape(shape, pos)` (`primitives.py` lines 524-536) as
the list of shapes submitted to `sketch.render` paired with the Python error
raised, if any.  The source renders the shape itself and then iterates over
`shape.children`, but the loop body calls `sketch.render(children)` where
the name `children` is undefined, so the first iteration raises `NameError`:
with a non-empty child list only the parent is ever rendered. -/
def draw_shape (shape : PShape) : List PShape × Option PyErr :=
  match shape.children with
  | [] => ([shape], none)
  | _ :: _ => ([shape], some (.nameError "children"))

end P5

namespace P5

/-- The process-wide stroke style globals of `p5.sketch.renderer` mutated by
the setters in `attribs.py` (initial values "BUTT" and "MITER"). -/
structure RendererState where
  stroke_cap : String
  stroke_join : String
deriving Repr, DecidableEq

/-- `attribs.stroke_cap(cap)` (lines 84-94): any cap name other than BUTT,
ROUND or SQUARE raises `ValueError` (the spec's InvalidStyleValue) before the
assignment to `renderer.stroke_cap`, so on failure the prior state is
returned unchanged alongside the error. -/
def stroke_cap (cap : String) (st : RendererState) :
    RendererState × Option PyErr :=
  if cap ≠ "BUTT" ∧ cap ≠ "ROUND" ∧ cap ≠ "SQUARE" then
    (st, some (.valueError "Cap must be BUTT, ROUND or SQUARE"))
  else
    ({ st with stroke_cap := cap }, none)

/-- `attribs.stroke_join(join)` (lines 96-106): any join name other than
MITER, ROUND or SQUARE raises `ValueError` before the assignment to
`renderer.stroke_join`, so on failure the prior state is returned unchanged
alongside the error. -/
def stroke_join (j : String) (st : RendererState) :
    RendererState × Option PyErr :=
  if j ≠ "MITER" ∧ j ≠ "ROUND" ∧ j ≠ "SQUARE" then
    (st, some (.valueError "Join must be MITER, ROUND or SQUARE"))
  else
    ({ st with stroke_join := j }, none)

/-- Modelled from the spec: `p5.pmath.curves.curve_point`, which is not among
the given sources.  The spec requires each sample to map through the
Catmull-Rom basis, with the curve passing through its middle two control
points at t = 0 and t = 1; this is the standard uniform Catmull-Rom cubic,
applied componentwise. -/
def curve_point (p1 p2 p3 p4 : Point) (t : ℚ) : Point :=
  let f : ℚ → ℚ → ℚ → ℚ → ℚ := fun a b c d =>
    (2 * b + (-a + c) * t + (2 * a - 5 * b + 4 * c - d) * t ^ 2
      + (-a + 3 * b - 3 * c + d) * t ^ 3) / 2
  ⟨f p1.x p2.x p3.x p4.x, f p1.y p2.y p3.y p4.y, f p1.z p2.z p3.z p4.z⟩

/-- `primitives.curve(point_1, point_2, point_3, point_4)` (lines 179-206):
samples `curve_point` at `t = i / steps` for `i = 0, ..., steps`, where
`steps` is the process-wide curve resolution `curves.curve_resolution`
(default 20, not among the given sources), passed here as a parameter.  The
source's `p[:3]` slice is the identity on the three-component points. -/
def curve (p1 p2 p3 p4 : Point) (steps : ℕ) : List Point :=
  (List.range (steps + 1)).map
    (fun (i : ℕ) => curve_point p1 p2 p3 p4 ((i : ℚ) / (steps : ℚ)))

end P5

namespace P5

/-- C4: for every center `c` and dimensions `w`, `h`, `rect(c, w, h,
mode=CENTER)` and `rect(corner, w, h, mode=CORNER)` with `corner = c -
(w/2, h/2)` produce identical canonical corner, width and height. -/
theorem C4_rect_center_corner_equiv (c : Point) (w h : ℚ) :
    rect c.toPyPt w h "CENTER" =
      rect (Point.toPyPt ⟨c.x - w / 2, c.y - h / 2, c.z⟩) w h "CORNER" :=
  rfl

/-- C9: for every coordinate and size argument, `square` and `circle` in
CORNERS mode fail with the InvalidMode `ValueError` and construct no
shape (the error is raised before the delegated `rect`/`ellipse` call, and
neither function is wrapped by the draw-on-return decorator, so nothing is
rendered). -/
theorem C9_square_circle_corners_invalid (coordinate : PyPt) (s r : ℚ) :
    square coordinate s "CORNERS" =
      .error (.valueError "Cannot draw square with CORNERS mode") ∧
    circle coordinate r "CORNERS" =
      .error (.valueError "Cannot create circle in CORNERS mode") :=
  ⟨rfl, rfl⟩

/-- C8: `stroke_cap` on any value outside BUTT/ROUND/SQUARE and
`stroke_join` on any value outside MITER/ROUND/SQUARE fail with the
InvalidStyleValue `ValueError` and leave the prior stroke-cap and
stroke-join state unchanged. -/
theorem C8_stroke_cap_join_invalid (x y : String) (st : RendererState)
    (hx : x ≠ "BUTT" ∧ x ≠ "ROUND" ∧ x ≠ "SQUARE")
    (hy : y ≠ "MITER" ∧ y ≠ "ROUND" ∧ y ≠ "SQUARE") :
    stroke_cap x st = (st, some (.valueError "Cap must be BUTT, ROUND or SQUARE")) ∧
    stroke_join y st = (st, some (.valueError "Join must be MITER, ROUND or SQUARE")) := by
  constructor
  · simp [stroke_cap, hx.1, hx.2.1, hx.2.2]
  · simp [stroke_join, hy.1, hy.2.1, hy.2.2]

/-- Witness for C8 at the invalid value "DIAMOND" and the initial state. -/
theorem C8_witness :
    (("DIAMOND" : String) ≠ "BUTT" ∧ ("DIAMOND" : String) ≠ "ROUND" ∧
      ("DIAMOND" : String) ≠ "SQUARE") ∧
    (("DIAMOND" : String) ≠ "MITER" ∧ ("DIAMOND" : String) ≠ "ROUND" ∧
      ("DIAMOND" : String) ≠ "SQUARE") ∧
    (stroke_cap "DIAMOND" ⟨"BUTT", "MITER"⟩ =
      (⟨"BUTT", "MITER"⟩, some (.valueError "Cap must be BUTT, ROUND or SQUARE")) ∧
     stroke_join "DIAMOND" ⟨"BUTT", "MITER"⟩ =
      (⟨"BUTT", "MITER"⟩, some (.valueError "Join must be MITER, ROUND or SQUARE"))) :=
  ⟨by decide, by decide,
    C8_stroke_cap_join_invalid "DIAMOND" "DIAMOND" ⟨"BUTT", "MITER"⟩
      (by decide) (by decide)⟩

end P5

namespace P5

/-- The mode resolution claimed for `ellipse` (resolved center and
half-extents per mode), following the spec's words: "same four-mode
resolution as rect but producing a center+half-extent pair" — center is the
coordinate for CENTER/RADIUS, coordinate + dims/2 for CORNER, the midpoint
of the two corners for CORNERS; half-extents are dims/2 for CORNER/CENTER
and the given radii for RADIUS. -/
def ellipseResolvedSpec (coordinate : Point) (arg1 arg2 : ℚ) (mode : String) :
    Option (Point × ℚ × ℚ) :=
  if mode = "CORNER" then
    some (⟨coordinate.x + arg1 / 2, coordinate.y + arg2 / 2, coordinate.z⟩,
      arg1 / 2, arg2 / 2)
  else if mode = "CENTER" then
    some (coordinate, arg1 / 2, arg2 / 2)
  else if mode = "RADIUS" then
    some (coordinate, arg1, arg2)
  else if mode = "CORNERS" then
    some (⟨(coordinate.x + arg1) / 2, (coordinate.y + arg2) / 2, coordinate.z⟩,
      (arg1 - coordinate.x) / 2, (arg2 - coordinate.y) / 2)
  else none

/-- C1 fails on the code: `ellipse((0,0,0), 4, 6, mode=CORNER)` stores the
raw corner (0,0,0) as the shape's center, not the mode-resolved center
(2,3,0) that the claim requires (and that the source computes into a local
`center` binding and then discards, returning
`Ellipse(coordinate, width, height)`). -/
theorem C1_ellipse_corner_stores_unresolved_center :
    ellipse (.triple 0 0 0) 4 6 "CORNER" = .ok ⟨.triple 0 0 0, 4, 6⟩ ∧
    ellipseResolvedSpec ⟨0, 0, 0⟩ 4 6 "CORNER" = some (⟨2, 3, 0⟩, 2, 3) ∧
    ((PyPt.triple 0 0 0) ≠ .triple 2 3 0 ∧ (4 : ℚ) ≠ 2 ∧ (6 : ℚ) ≠ 3) :=
  ⟨rfl, by norm_num [ellipseResolvedSpec], by decide⟩

/-- A child shape for exercising `primitives.draw_shape`. -/
def childShape : PShape :=
  .mk (.poly [(0, 0), (1, 1)]) ["path"] "path" none
    (some (0, 0, 0, 1)) 1 "BUTT" "MITER" ⟨1, 0, 0, 1, 0, 0⟩ []

/-- A parent shape with one child for exercising `primitives.draw_shape`. -/
def parentShape : PShape :=
  .mk (.poly [(2, 2), (3, 3), (2, 3)]) [] "poly" (some (1, 1, 1, 1))
    (some (0, 0, 0, 1)) 1 "BUTT" "MITER" ⟨1, 0, 0, 1, 0, 0⟩ [childShape]

/-- C2 fails on the code: for a shape with one child, `primitives.draw_shape`
renders the parent and then raises `NameError` in the child loop (the loop
body calls `sketch.render(children)` where `children` is undefined), so the
rendered objects are the parent alone, not the parent followed by its
children as the claim requires. -/
theorem C2_draw_shape_child_name_error :
    draw_shape parentShape = ([parentShape], some (.nameError "children")) ∧
    draw_shape parentShape ≠ (parentShape :: parentShape.children, none) := by
  refine ⟨rfl, fun h => ?_⟩
  have h2 := congrArg Prod.snd h
  simp [draw_shape, parentShape, PShape.children] at h2

/-- A fillable polygon shape whose fill and stroke have four pairwise
distinct normalized channels, for exercising the renderer's paint calls. -/
def paintShape : PShape :=
  .mk (.poly [(0, 0), (1, 0), (1, 1)]) [] "poly"
    (some (1/10, 2/10, 3/10, 1)) (some (4/10, 5/10, 6/10, 9/10))
    1 "BUTT" "MITER" ⟨1, 0, 0, 1, 0, 0⟩ []

/-- C3 fails on the code: for a polygon with fill channels `(r, g, b, a) =
(0.1, 0.2, 0.3, 1)` and stroke channels `(0.4, 0.5, 0.6, 0.9)`, the renderer
passes `(r, b, g, a)` to the canvas `fillColor`/`strokeColor` calls — green
and blue transposed — and never the RGBA order the claim requires. -/
theorem C3_paint_channels_transposed :
    Renderer.Cmd.fillColor (1/10) (3/10) (2/10) 1 ∈
      (Renderer.draw_shape true paintShape).1 ∧
    Renderer.Cmd.fillColor (1/10) (2/10) (3/10) 1 ∉
      (Renderer.draw_shape true paintShape).1 ∧
    Renderer.Cmd.strokeColor (4/10) (6/10) (5/10) (9/10) ∈
      (Renderer.draw_shape true paintShape).1 ∧
    Renderer.Cmd.strokeColor (4/10) (5/10) (6/10) (9/10) ∉
      (Renderer.draw_shape true paintShape).1 := by
  have h : Renderer.draw_shape true paintShape =
      ([.shapeAntiAlias 1, .beginPath, .save, .transform2d 1 0 0 1 0 0,
        .moveTo 0 0, .lineTo 1 0, .lineTo 1 1,
        .restore, .lineCap 1, .lineJoin 1, .strokeWidth 1,
        .fillColor (1/10) (3/10) (2/10) 1, .fillCmd,
        .strokeColor (4/10) (6/10) (5/10) (9/10), .strokeCmd], none) := rfl
  refine ⟨?_, ?_, ?_, ?_⟩ <;> rw [h] <;> simp <;> norm_num

end P5

namespace P5

namespace Renderer

/-- The rational arguments carried by a canvas command, in call order. -/
def Cmd.params : Cmd → List ℚ
  | .shapeAntiAlias _ => []
  | .beginPath => []
  | .save => []
  | .transform2d a b c d e f => [a, b, c, d, e, f]
  | .rect x y w h => [x, y, w, h]
  | .moveTo x y => [x, y]
  | .lineTo x y => [x, y]
  | .arc cx cy r a0 a1 _ => [cx, cy, r, a0, a1]
  | .ellipse cx cy rx ry => [cx, cy, rx, ry]
  | .bezierTo c1x c1y c2x c2y x y => [c1x, c1y, c2x, c2y, x, y]
  | .closePath => []
  | .restore => []
  | .lineCap _ => []
  | .lineJoin _ => []
  | .strokeWidth w => [w]
  | .fillColor r g b a => [r, g, b, a]
  | .fillCmd => []
  | .strokeColor r g b a => [r, g, b, a]
  | .strokeCmd => []

/-- Paint commands: the color-setting and fill/stroke paint calls. -/
def Cmd.isPaint : Cmd → Bool
  | .fillColor _ _ _ _ => true
  | .fillCmd => true
  | .strokeColor _ _ _ _ => true
  | .strokeCmd => true
  | _ => false

/-- The argument-less fill paint call is emitted iff the shape kind is
"poly" and the fill is non-null. -/
theorem fillCmd_mem_fillCmds (kind : String) (fill : Option RGBA) :
    Cmd.fillCmd ∈ fillCmds kind fill ↔ kind = "poly" ∧ fill ≠ none := by
  rcases fill with _ | ⟨r, g, b, a⟩ <;>
    by_cases hk : kind = "poly" <;> simp [fillCmds, hk]

/-- The argument-less stroke paint call is emitted iff the stroke is
non-null. -/
theorem strokeCmd_mem_strokeCmds (stroke : Option RGBA) :
    Cmd.strokeCmd ∈ strokeCmds stroke ↔ stroke ≠ none := by
  rcases stroke with _ | ⟨r, g, b, a⟩ <;> simp [strokeCmds]

/-- Commands that are not paint commands never occur in the fill block. -/
theorem not_paint_not_mem_fillCmds (c : Cmd) (h : c.isPaint = false)
    (kind : String) (fill : Option RGBA) : c ∉ fillCmds kind fill := by
  intro hc
  rcases fill with _ | ⟨r, g, b, a⟩ <;>
    by_cases hk : kind = "poly" <;> simp [fillCmds, hk] at hc
  rcases hc with rfl | rfl <;> simp [Cmd.isPaint] at h

/-- Commands that are not paint commands never occur in the stroke block. -/
theorem not_paint_not_mem_strokeCmds (c : Cmd) (h : c.isPaint = false)
    (stroke : Option RGBA) : c ∉ strokeCmds stroke := by
  intro hc
  rcases stroke with _ | ⟨r, g, b, a⟩ <;> simp [strokeCmds] at hc
  rcases hc with rfl | rfl <;> simp [Cmd.isPaint] at h

/-- The fill paint call never occurs in the stroke block. -/
theorem fillCmd_not_mem_strokeCmds (stroke : Option RGBA) :
    Cmd.fillCmd ∉ strokeCmds stroke := by
  rcases stroke with _ | ⟨r, g, b, a⟩ <;> simp [strokeCmds]

/-- The stroke paint call never occurs in the fill block. -/
theorem strokeCmd_not_mem_fillCmds (kind : String) (fill : Option RGBA) :
    Cmd.strokeCmd ∉ fillCmds kind fill := by
  rcases fill with _ | ⟨r, g, b, a⟩ <;>
    by_cases hk : kind = "poly" <;> simp [fillCmds, hk]

/-- No path-construction command is a paint command. -/
theorem pathCmds_no_paint (g : Geom) (attribs : List String) :
    ∀ c ∈ (pathCmds g attribs).1, c.isPaint = false := by
  intro c hc
  cases g with
  | poly vs =>
    simp only [pathCmds] at hc
    by_cases hp : "point" ∈ attribs
    · rw [if_pos hp] at hc
      cases vs with
      | nil => simp at hc
      | cons v rest =>
        simp only at hc
        rcases List.mem_cons.mp hc with rfl | hc2
        · rfl
        · rcases List.mem_singleton.mp hc2 with rfl
          rfl
    · rw [if_neg hp] at hc
      simp only at hc
      cases vs with
      | nil => simp [polyCmds] at hc
      | cons v rest =>
        rcases List.mem_cons.mp hc with rfl | hc2
        · rfl
        · obtain ⟨p, _, rfl⟩ := List.mem_map.mp hc2
          rfl
  | arcG center radii a0 a1 =>
    simp only [pathCmds] at hc
    rcases List.mem_append.mp hc with hc1 | hc2
    · rcases List.mem_singleton.mp hc1 with rfl
      rfl
    · by_cases hp : "pie" ∈ attribs
      · rw [if_pos hp] at hc2
        rcases List.mem_singleton.mp hc2 with rfl
        rfl
      · rw [if_neg hp] at hc2
        simp at hc2
  | ellipseG center w h =>
    rcases center with _ | _
    · rcases List.mem_singleton.mp hc with rfl
      rfl
    · simp [pathCmds] at hc
  | rectG center w h =>
    rcases center with _ | _
    · rcases List.mem_singleton.mp hc with rfl
      rfl
    · simp [pathCmds] at hc
  | bezierG s c1 c2 e =>
    rcases List.mem_cons.mp hc with rfl | hc2
    · rfl
    · rcases List.mem_singleton.mp hc2 with rfl
      rfl

/-- Membership in the renderer's command stream when the kind branch raises
no error, decomposed into the prefix, the kind-branch path commands, the
optional close, the stroke-style block, and the paint blocks. -/
theorem mem_draw_shape (smooth : Bool) (s : PShape)
    (h : (pathCmds s.geom s.attribs).2 = none) (c : Cmd) :
    c ∈ (draw_shape smooth s).1 ↔
      c = .shapeAntiAlias (if smooth then 1 else 0) ∨ c = .beginPath ∨ c = .save ∨
      c = .transform2d s.mat.m00 s.mat.m10 s.mat.m01 s.mat.m11 s.mat.m03 s.mat.m13 ∨
      c ∈ (pathCmds s.geom s.attribs).1 ∨
      ("closed" ∈ s.attribs ∧ c = .closePath) ∨
      c = .restore ∨ c = .lineCap (capType s.strokeCap) ∨
      c = .lineJoin (joinType s.strokeJoin) ∨
      c = .strokeWidth s.strokeWeight ∨
      c ∈ fillCmds s.kind s.fill ∨
      c ∈ strokeCmds s.stroke := by
  rcases hpc : pathCmds s.geom s.attribs with ⟨cmds, e⟩
  rw [hpc] at h
  simp only at h
  subst h
  simp only [draw_shape, hpc]
  simp only [List.mem_append, List.mem_cons, List.not_mem_nil, or_false]
  by_cases hcl : "closed" ∈ s.attribs <;> simp [hcl] <;> tauto

end Renderer

end P5

namespace P5

/-- An Arc shape with distinct radii (2 and 5) for exercising the renderer's
arc branch. -/
def arcCexShape : PShape :=
  .mk (Geom.ofArc ⟨⟨0, 0, 0⟩, ⟨2, 5, 0⟩, 0, 1, ["open"]⟩) ["open"] "arc"
    none none 1 "BUTT" "MITER" ⟨1, 0, 0, 1, 0, 0⟩ []

/-- C6 fails on the code for an arc with distinct radii: for the Arc with
center (0,0), radii (2,5) and angles 0..1 the renderer emits the circular
`vg.arc(0, 0, 2, 0, 1, 2)` call, and the y-radius 5 appears among the
parameters of no emitted command — no emitted path command is parameterized
by both radii. -/
theorem C6_counterexample :
    Renderer.draw_shape true arcCexShape =
      ([.shapeAntiAlias 1, .beginPath, .save, .transform2d 1 0 0 1 0 0,
        .arc 0 0 2 0 1 2,
        .restore, .lineCap 1, .lineJoin 1, .strokeWidth 1], none) ∧
    ∀ c ∈ (Renderer.draw_shape true arcCexShape).1,
      (5 : ℚ) ∉ Renderer.Cmd.params c := by
  have h : Renderer.draw_shape true arcCexShape =
      ([.shapeAntiAlias 1, .beginPath, .save, .transform2d 1 0 0 1 0 0,
        .arc 0 0 2 0 1 2,
        .restore, .lineCap 1, .lineJoin 1, .strokeWidth 1], none) := rfl
  refine ⟨h, ?_⟩
  rw [h]
  intro c hc
  simp only [List.mem_cons, List.not_mem_nil, or_false] at hc
  rcases hc with rfl | rfl | rfl | rfl | rfl | rfl | rfl | rfl | rfl <;>
    simp [Renderer.Cmd.params]

/-- C6 amended: for every Arc shape, the renderer emits a circular-arc path
command parameterized by the arc's center, its x-radius and its start and
stop angles (the y-radius is not passed to the canvas), and a closing
line-to back to the center follows if and only if "pie" is among the
shape's attribs. -/
theorem C6_arc_path_commands (smooth : Bool) (a : Arc) (kind : String)
    (fill stroke : Option RGBA) (sw : ℚ) (cap jn : String) (mat : TMat)
    (children : List PShape) :
    Renderer.Cmd.arc a.center.x a.center.y a.radii.x a.startAngle a.stopAngle 2 ∈
      (Renderer.draw_shape smooth
        (.mk (Geom.ofArc a) a.attribs kind fill stroke sw cap jn mat children)).1 ∧
    (Renderer.Cmd.lineTo a.center.x a.center.y ∈
        (Renderer.draw_shape smooth
          (.mk (Geom.ofArc a) a.attribs kind fill stroke sw cap jn mat children)).1 ↔
      "pie" ∈ a.attribs) := by
  have hok : (Renderer.pathCmds
      (PShape.mk (Geom.ofArc a) a.attribs kind fill stroke sw cap jn mat
        children).geom
      (PShape.mk (Geom.ofArc a) a.attribs kind fill stroke sw cap jn mat
        children).attribs).2 = none := rfl
  constructor
  · rw [Renderer.mem_draw_shape _ _ hok]
    have hmem : Renderer.Cmd.arc a.center.x a.center.y a.radii.x a.startAngle
        a.stopAngle 2 ∈
        (Renderer.pathCmds (PShape.mk (Geom.ofArc a) a.attribs kind fill stroke
          sw cap jn mat children).geom
          (PShape.mk (Geom.ofArc a) a.attribs kind fill stroke
            sw cap jn mat children).attribs).1 := by
      simp [PShape.geom, PShape.attribs, Geom.ofArc, Renderer.pathCmds]
    tauto
  · constructor
    · intro hmem
      rw [Renderer.mem_draw_shape _ _ hok] at hmem
      simp only [PShape.geom, PShape.attribs, PShape.kind, PShape.fill,
        PShape.stroke, Geom.ofArc] at hmem
      rcases hmem with h | h | h | h | h | h | h | h | h | h | h | h
      · simp at h
      · simp at h
      · simp at h
      · simp at h
      · by_cases hp : "pie" ∈ a.attribs
        · exact hp
        · simp [Renderer.pathCmds, hp] at h
      · simp at h
      · simp at h
      · simp at h
      · simp at h
      · simp at h
      · exact absurd h (Renderer.not_paint_not_mem_fillCmds
          (.lineTo a.center.x a.center.y) rfl kind fill)
      · exact absurd h (Renderer.not_paint_not_mem_strokeCmds
          (.lineTo a.center.x a.center.y) rfl stroke)
    · intro hp
      rw [Renderer.mem_draw_shape _ _ hok]
      have hmem : Renderer.Cmd.lineTo a.center.x a.center.y ∈
          (Renderer.pathCmds (PShape.mk (Geom.ofArc a) a.attribs kind fill stroke
            sw cap jn mat children).geom
            (PShape.mk (Geom.ofArc a) a.attribs kind fill stroke
              sw cap jn mat children).attribs).1 := by
        simp [PShape.geom, PShape.attribs, Geom.ofArc, Renderer.pathCmds, hp]
      tauto

end P5

namespace P5

/-- The Rect produced by `rect((3, 4), (1, 2), mode=CORNERS)` — corner stored
as the three-component `Point(3, 4, 0)`, signed extents -2, -2 — wrapped as
a renderer shape with a non-null stroke. -/
def cornersRectShape : PShape :=
  .mk (Geom.ofRect ⟨.triple 3 4 0, -2, -2⟩) [] "rect" none (some (0, 0, 0, 1))
    1 "BUTT" "MITER" ⟨1, 0, 0, 1, 0, 0⟩ []

/-- C5 fails on the code at draw time: `rect((3, 4), (1, 2), mode=CORNERS)`
itself succeeds — no InvalidMode error, signed extents width = -2,
height = -2 stored unnormalized — but the shape's stored corner is the
three-component `Point(3, 4, 0)`, so the renderer's Rect branch two-unpack
`cx, cy = shape._center` raises `ValueError` before `vg.rect` is reached:
the draw call does not succeed and no canvas rect command is emitted at
all, with or without sign normalization. -/
theorem C5_rect_corners_draw_unpack_error :
    rect (.pair 3 4) 1 2 "CORNERS" = .ok ⟨.triple 3 4 0, -2, -2⟩ ∧
    ((1 : ℚ) < 3 ∧ (-2 : ℚ) < 0) ∧
    (Renderer.draw_shape true cornersRectShape).2 =
      some (.valueError "too many values to unpack (expected 2)") ∧
    ∀ x y w h, Renderer.Cmd.rect x y w h ∉
      (Renderer.draw_shape true cornersRectShape).1 := by
  have h1 : rect (.pair 3 4) 1 2 "CORNERS" = .ok ⟨.triple 3 4 0, 1 - 3, 2 - 4⟩ :=
    rfl
  refine ⟨by rw [h1]; norm_num, by norm_num, rfl, ?_⟩
  intro x y w h hmem
  have hdw : Renderer.draw_shape true cornersRectShape =
      ([.shapeAntiAlias 1, .beginPath, .save, .transform2d 1 0 0 1 0 0],
        some (.valueError "too many values to unpack (expected 2)")) := rfl
  rw [hdw] at hmem
  simp at hmem

/-- A Rect-geometry shape with a three-component stored center and a
non-null stroke, for the renderer's paint dispatch. -/
def rectStrokeShape : PShape :=
  .mk (.rectG (.triple 1 2 0) 5 6) [] "rect" none (some (0, 0, 0, 1))
    1 "BUTT" "MITER" ⟨1, 0, 0, 1, 0, 0⟩ []

/-- C10 fails on the code: this Rect shape has a non-null stroke, yet the
renderer's Rect branch raises the unpack `ValueError` on the stored
three-component center before the paint block is reached, so no stroke
command is issued — the stroke is not issued "for every shape whose stroke
is non-null". -/
theorem C10_counterexample :
    rectStrokeShape.stroke ≠ none ∧
    Renderer.Cmd.strokeCmd ∉ (Renderer.draw_shape true rectStrokeShape).1 ∧
    (Renderer.draw_shape true rectStrokeShape).2 =
      some (.valueError "too many values to unpack (expected 2)") := by
  refine ⟨by simp [rectStrokeShape, PShape.stroke], ?_, rfl⟩
  intro hmem
  have hdw : Renderer.draw_shape true rectStrokeShape =
      ([.shapeAntiAlias 1, .beginPath, .save, .transform2d 1 0 0 1 0 0],
        some (.valueError "too many values to unpack (expected 2)")) := rfl
  rw [hdw] at hmem
  simp at hmem

/-- C10 amended: provided the shape's path-construction branch raises no
error, the renderer's draw_shape issues the fill canvas command if and only
if the shape's kind is "poly" and its fill is non-null (a shape of any
other kind is never filled even with a non-null fill), while the stroke
command is issued if and only if the stroke is non-null, regardless of
kind. -/
theorem C10_fill_stroke_dispatch (smooth : Bool) (s : PShape)
    (h : (Renderer.pathCmds s.geom s.attribs).2 = none) :
    (Renderer.Cmd.fillCmd ∈ (Renderer.draw_shape smooth s).1 ↔
      s.kind = "poly" ∧ s.fill ≠ none) ∧
    (Renderer.Cmd.strokeCmd ∈ (Renderer.draw_shape smooth s).1 ↔
      s.stroke ≠ none) := by
  constructor
  · constructor
    · intro hmem
      rw [Renderer.mem_draw_shape _ _ h] at hmem
      rcases hmem with hx | hx | hx | hx | hx | hx | hx | hx | hx | hx | hx | hx
      · simp at hx
      · simp at hx
      · simp at hx
      · simp at hx
      · exact absurd (Renderer.pathCmds_no_paint _ _ _ hx)
          (by simp [Renderer.Cmd.isPaint])
      · simp at hx
      · simp at hx
      · simp at hx
      · simp at hx
      · simp at hx
      · exact (Renderer.fillCmd_mem_fillCmds s.kind s.fill).mp hx
      · exact absurd hx (Renderer.fillCmd_not_mem_strokeCmds s.stroke)
    · intro hks
      rw [Renderer.mem_draw_shape _ _ h]
      have := (Renderer.fillCmd_mem_fillCmds s.kind s.fill).mpr hks
      tauto
  · constructor
    · intro hmem
      rw [Renderer.mem_draw_shape _ _ h] at hmem
      rcases hmem with hx | hx | hx | hx | hx | hx | hx | hx | hx | hx | hx | hx
      · simp at hx
      · simp at hx
      · simp at hx
      · simp at hx
      · exact absurd (Renderer.pathCmds_no_paint _ _ _ hx)
          (by simp [Renderer.Cmd.isPaint])
      · simp at hx
      · simp at hx
      · simp at hx
      · simp at hx
      · simp at hx
      · exact absurd hx (Renderer.strokeCmd_not_mem_fillCmds s.kind s.fill)
      · exact (Renderer.strokeCmd_mem_strokeCmds s.stroke).mp hx
    · intro hs
      rw [Renderer.mem_draw_shape _ _ h]
      have := (Renderer.strokeCmd_mem_strokeCmds s.stroke).mpr hs
      tauto

/-- A polygon shape with non-null fill and stroke whose path construction
raises no error. -/
def polyStrokeShape : PShape :=
  .mk (.poly [(0, 0), (2, 0), (2, 2)]) [] "poly" (some (1, 0, 0, 1))
    (some (0, 1, 0, 1)) 1 "BUTT" "MITER" ⟨1, 0, 0, 1, 0, 0⟩ []

/-- Witness for the amended C10 at a concrete polygon shape with non-null
fill and stroke. -/
theorem C10_witness :
    (Renderer.pathCmds polyStrokeShape.geom polyStrokeShape.attribs).2 = none ∧
    ((Renderer.Cmd.fillCmd ∈ (Renderer.draw_shape true polyStrokeShape).1 ↔
        polyStrokeShape.kind = "poly" ∧ polyStrokeShape.fill ≠ none) ∧
      (Renderer.Cmd.strokeCmd ∈ (Renderer.draw_shape true polyStrokeShape).1 ↔
        polyStrokeShape.stroke ≠ none)) :=
  ⟨rfl, C10_fill_stroke_dispatch true polyStrokeShape rfl⟩

end P5

namespace P5

/-- The Catmull-Rom sample at t = 0 is the second control point. -/
theorem curve_point_zero (p1 p2 p3 p4 : Point) :
    curve_point p1 p2 p3 p4 0 = p2 := by
  cases p2 with
  | mk x y z =>
    simp only [curve_point, Point.mk.injEq]
    refine ⟨by ring, by ring, by ring⟩

/-- The Catmull-Rom sample at t = 1 is the third control point. -/
theorem curve_point_one (p1 p2 p3 p4 : Point) :
    curve_point p1 p2 p3 p4 1 = p3 := by
  cases p3 with
  | mk x y z =>
    simp only [curve_point, Point.mk.injEq]
    refine ⟨by ring, by ring, by ring⟩

/-- C7: for a positive curve resolution `steps`, the polyline produced by
`curve(p1, p2, p3, p4)` has exactly steps + 1 vertices, its first vertex is
the second control point and its last vertex is the third control point —
the Catmull-Rom samples at t = 0 and t = 1 reproduce the middle two control
points (exactly, over the rationals). -/
theorem C7_curve_vertices (p1 p2 p3 p4 : Point) (steps : ℕ) (h : 0 < steps) :
    (curve p1 p2 p3 p4 steps).length = steps + 1 ∧
    (curve p1 p2 p3 p4 steps).head? = some p2 ∧
    (curve p1 p2 p3 p4 steps).getLast? = some p3 := by
  refine ⟨by simp [curve], ?_, ?_⟩
  · unfold curve
    rw [List.range_succ_eq_map]
    simp only [List.map_cons, List.head?_cons, Option.some.injEq]
    rw [Nat.cast_zero, zero_div]
    exact curve_point_zero p1 p2 p3 p4
  · unfold curve
    rw [List.range_succ, List.map_append, List.map_singleton,
      List.getLast?_concat]
    rw [div_self (Nat.cast_ne_zero.mpr h.ne')]
    rw [curve_point_one p1 p2 p3 p4]

/-- Witness for C7 at the default curve resolution 20 and the control
points (0,0,0), (1,2,0), (3,5,0), (7,11,0). -/
theorem C7_witness :
    0 < 20 ∧
    ((curve ⟨0, 0, 0⟩ ⟨1, 2, 0⟩ ⟨3, 5, 0⟩ ⟨7, 11, 0⟩ 20).length = 20 + 1 ∧
     (curve ⟨0, 0, 0⟩ ⟨1, 2, 0⟩ ⟨3, 5, 0⟩ ⟨7, 11, 0⟩ 20).head? = some ⟨1, 2, 0⟩ ∧
     (curve ⟨0, 0, 0⟩ ⟨1, 2, 0⟩ ⟨3, 5, 0⟩ ⟨7, 11, 0⟩ 20).getLast? =
       some ⟨3, 5, 0⟩) :=
  ⟨by decide,
    C7_curve_vertices ⟨0, 0, 0⟩ ⟨1, 2, 0⟩ ⟨3, 5, 0⟩ ⟨7, 11, 0⟩ 20 (by decide)⟩

end P5
